import Mathlib

/-!
# Store Credit Register — formal model

A shallow embedding of the store-credit-register application
(`src/app.py`): the line-item aggregator, the entry validators, the
ledger write paths (create / update / delete), the range queries used
by the editing and export tabs, and the delete-confirmation state
machine kept in the session state.

Monetary amounts and percentages are modelled as exact rationals `ℚ`
(the claims under study are about bounds, sums and structure, not about
binary floating-point rounding).  Dates and times are stored by the
program as fixed-width ISO strings ("YYYY-MM-DD", "HH:MM:SS"), whose
lexicographic order coincides with chronological order; they are
modelled as naturals carrying that order.
-/

namespace StoreCredit

/-- `MAX_CHARGE_PERCENTAGE = 10.0` (app.py line 15). -/
def MAX_CHARGE_PERCENTAGE : ℚ := 10

/-- `MAX_AMOUNT = 1000000.0` (app.py line 16). -/
def MAX_AMOUNT : ℚ := 1000000

/-- `validate_amount` (app.py lines 110-118): `False` when the amount is
negative or exceeds `MAX_AMOUNT`, `True` otherwise.  The `st.error`
message rendering is abstracted into the boolean outcome. -/
def validate_amount (amount : ℚ) : Bool :=
  if amount < 0 then false
  else if amount > MAX_AMOUNT then false
  else true

/-- `validate_charge_percentage` (app.py lines 120-128). -/
def validate_charge_percentage (pct : ℚ) : Bool :=
  if pct < 0 then false
  else if pct > MAX_CHARGE_PERCENTAGE then false
  else true

/-- One deposit/withdrawal line of the entry form: the dicts
`{"amount": …, "charge_pct": …, "id": …}` held in
`st.session_state.b_entries` / `k_entries` (app.py lines 136-137,
161-162, 271-275). -/
structure LineItem where
  amount : ℚ
  charge_pct : ℚ
  id : Nat
deriving DecidableEq, Repr

/-- Per-line charge, `ch = e["amount"] * e["charge_pct"] / 100`
(app.py lines 249 and 323). -/
def lineCharge (e : LineItem) : ℚ := e.amount * e.charge_pct / 100

/-- The running totals of the render loop (app.py lines 212, 259-260 for
B; lines 287, 333-334 for K): starting from `b_amt = b_chg = 0.0`, each
line adds its amount to the first component and its charge to the
second. -/
def totals (c : List LineItem) : ℚ × ℚ :=
  c.foldl (fun acc e => (acc.1 + e.amount, acc.2 + lineCharge e)) (0, 0)

theorem totals_foldl_aux (c : List LineItem) (a b : ℚ) :
    c.foldl (fun acc e => (acc.1 + e.amount, acc.2 + lineCharge e)) (a, b) =
      (a + (c.map LineItem.amount).sum, b + (c.map lineCharge).sum) := by
  induction c generalizing a b with
  | nil => simp
  | cons x xs ih =>
      simp only [List.foldl_cons, List.map_cons, List.sum_cons, ih, Prod.mk.injEq]
      constructor <;> ring

/-- `totals` is exactly the pair (sum of amounts, sum of per-line charges). -/
theorem totals_eq_sum (c : List LineItem) :
    totals c = ((c.map LineItem.amount).sum, (c.map lineCharge).sum) := by
  simpa using totals_foldl_aux c 0 0

/-- Python's `str.strip()`: remove whitespace from both ends of the
string.  (Modelled structurally so that it evaluates by `decide`; on the
ASCII whitespace relevant here it agrees with Python's semantics.) -/
def strip (s : String) : String :=
  ⟨(((s.data.dropWhile Char.isWhitespace).reverse.dropWhile
      Char.isWhitespace).reverse)⟩

/-- A persisted row of the `entries` table (app.py lines 33-48).
`entry_date` and `entry_time` carry the chronological order of the
stored fixed-width ISO strings; all money columns are exact decimals. -/
structure Row where
  id : Nat
  entry_date : Nat
  entry_time : Nat
  customer_type : String
  customer_name : String
  payment_mode : String
  b_amount : ℚ
  b_charges : ℚ
  k_amount : ℚ
  k_charges : ℚ
  grand_charges : ℚ
  remarks : String
deriving DecidableEq, Repr

/-- The errors of the validation and store layer (spec §7 taxonomy;
in the program each corresponds to a distinct `st.error` message
followed by `st.stop`). -/
inductive Err where
  | MissingField
  | OutOfRange
  | NotFound
deriving DecidableEq, Repr

/-- The `AUTOINCREMENT` primary key: one more than the largest id ever
used; modelled as max of present ids plus one. -/
def nextId (store : List Row) : Nat :=
  (store.map Row.id).foldr max 0 + 1

/-- The Save-Entry handler (app.py lines 371-414): check the trimmed
customer name is non-empty (line 373), validate the B total and the K
total with `validate_amount` (lines 378-381), then `INSERT` a row whose
name and remarks are stripped (lines 388-403) and whose
`grand_charges` is `b_chg + k_chg` (line 360).  Returns the store after
the operation together with the error, if any; on error the store is
returned unchanged (the handler `st.stop`s before any write). -/
def createEntry (date time : Nat) (ctype name pmode remarks : String)
    (bLines kLines : List LineItem) (store : List Row) :
    List Row × Option Err :=
  let bt := totals bLines
  let kt := totals kLines
  if strip name = "" then (store, some .MissingField)
  else if validate_amount bt.1 = false then (store, some .OutOfRange)
  else if validate_amount kt.1 = false then (store, some .OutOfRange)
  else
    (store ++ [{ id := nextId store
                 entry_date := date
                 entry_time := time
                 customer_type := ctype
                 customer_name := strip name
                 payment_mode := pmode
                 b_amount := bt.1
                 b_charges := bt.2
                 k_amount := kt.1
                 k_charges := kt.2
                 grand_charges := bt.2 + kt.2
                 remarks := strip remarks }], none)

/-- The Update-Entry handler (app.py lines 528-552): check only that
the trimmed customer name is non-empty (line 530), then `UPDATE` the
row with the selected id in place, storing the name and remarks exactly
as entered (line 546 passes `en` and `rm`, not their stripped forms)
and recomputing `grand_charges = b_chg + k_chg` (line 547).  An id that
matches no row updates nothing; SQLite raises no error and the handler
reports success. -/
def updateEntry (eid : Nat) (en ct pm : String)
    (b_amt b_chg k_amt k_chg : ℚ) (rm : String) (store : List Row) :
    List Row × Option Err :=
  if strip en = "" then (store, some .MissingField)
  else
    (store.map (fun r =>
      if r.id = eid then
        { r with customer_name := en
                 customer_type := ct
                 payment_mode := pm
                 b_amount := b_amt
                 b_charges := b_chg
                 k_amount := k_amt
                 k_charges := k_chg
                 grand_charges := b_chg + k_chg
                 remarks := rm }
      else r), none)

/-- One line-item collection of the entry form together with its id
counter (`st.session_state.b_entries`/`b_counter`, resp. `k_entries`/
`k_counter`). -/
structure Collection where
  items : List LineItem
  counter : Nat
deriving DecidableEq, Repr

/-- The collection as it stands after the first render: the seed item of
the `defaults` dict (app.py lines 136, 141) has no id, so the
ensure-ids loop (lines 215-218) assigns it `b_counter = 1` and advances
the counter to 2. -/
def initialCollection : Collection := ⟨[⟨0, 0, 1⟩], 2⟩

/-- The collection produced by `reset_form` (app.py lines 161-164): a
single zero line with id 0, and the counter restarted at 1. -/
def resetCollection : Collection := ⟨[⟨0, 0, 0⟩], 1⟩

/-- The Add-Entry button (app.py lines 270-278): append
`{amount: 0, charge_pct: 0, id: counter}` and increment the counter. -/
def addLine (c : Collection) : Collection :=
  ⟨c.items ++ [⟨0, 0, c.counter⟩], c.counter + 1⟩

/-- Remove the first item with the given id from the list (the handler
pops the clicked row's index; ids are the stable widget keys). -/
def eraseFirstId : List LineItem → Nat → List LineItem
  | [], _ => []
  | e :: es, i => if e.id = i then es else e :: eraseFirstId es i

/-- The 🗑️ button (app.py lines 254-266): the button is rendered only
when the collection has more than one item (line 255), so removal with
one item left is impossible; otherwise the clicked item is popped. -/
def removeLine (c : Collection) (i : Nat) : Collection :=
  if 1 < c.items.length then ⟨eraseFirstId c.items i, c.counter⟩ else c

/-- Editing a line's number inputs (app.py lines 228-247): the widgets
clamp the amount to `[0, MAX_AMOUNT]` and the percentage to
`[0, MAX_CHARGE_PERCENTAGE]`, and the entered values overwrite the
line's fields. -/
def updateLine (c : Collection) (i : Nat) (a p : ℚ) : Collection :=
  ⟨c.items.map (fun e =>
    if e.id = i then
      { e with amount := max 0 (min a MAX_AMOUNT)
               charge_pct := max 0 (min p MAX_CHARGE_PERCENTAGE) }
    else e), c.counter⟩

/-- The form-level operations of one session: add a line, remove a line,
edit a line, or save the entry (a successful save calls `reset_form`,
app.py line 407). -/
inductive Op where
  | add
  | remove (i : Nat)
  | update (i : Nat) (a p : ℚ)
  | saveReset

/-- Apply one form operation to a collection. -/
def applyOp (c : Collection) : Op → Collection
  | .add => addLine c
  | .remove i => removeLine c i
  | .update i a p => updateLine c i a p
  | .saveReset => resetCollection

/-- Apply a sequence of form operations. -/
def applyOps (c : Collection) (ops : List Op) : Collection :=
  ops.foldl applyOp c

/-- Run a session trace from the initial collection, recording every id
an item of the collection ever carries: the seed id 1 of the first
render, the seed id 0 written by each reset, and the counter value
consumed by each add. -/
def runTrace (ops : List Op) : Collection × List Nat :=
  ops.foldl
    (fun st op =>
      match op with
      | .add => (addLine st.1, st.2 ++ [st.1.counter])
      | .remove i => (removeLine st.1 i, st.2)
      | .update i a p => (updateLine st.1 i a p, st.2)
      | .saveReset => (resetCollection, st.2 ++ [0]))
    (initialCollection, [1])

/-- The delete-confirmation state held in the session
(`st.session_state.confirm_delete`, `st.session_state.delete_id`,
app.py lines 138-139): `⟨false, none⟩` is the Idle state and
`⟨true, some i⟩` is PendingConfirm(i). -/
structure DelState where
  confirm_delete : Bool
  delete_id : Option Nat
deriving DecidableEq, Repr

/-- The events the All-Entries tab can process for the delete flow:
pressing 🗑️ Delete, pressing ✅ Yes, pressing ❌ Cancel, or rendering
some other tab (navigation). -/
inductive DelEvent where
  | request
  | confirm
  | cancel
  | navigate

/-- One step of the delete-confirmation flow (app.py lines 554-582) for
the currently selected entry id `sel`: the Delete button is rendered
only in the Idle state (line 555) and moves to PendingConfirm(sel)
(lines 557-558); the Yes and Cancel buttons are rendered only when the
pending id equals the selection (line 561); Yes deletes the row(s) with
that id and returns to Idle (lines 570-573); Cancel returns to Idle
without touching the store (lines 580-581).  No code path resets the
confirmation state on navigation: the session keys persist and are only
written at lines 557-558, 572-573 and 580-581. -/
def delStep (ev : DelEvent) (sel : Nat) (s : DelState) (store : List Row) :
    DelState × List Row :=
  match ev with
  | .request =>
      if s.confirm_delete = false then (⟨true, some sel⟩, store) else (s, store)
  | .confirm =>
      if s.confirm_delete = true ∧ s.delete_id = some sel then
        (⟨false, none⟩, store.filter (fun r => r.id ≠ sel))
      else (s, store)
  | .cancel =>
      if s.confirm_delete = true ∧ s.delete_id = some sel then
        (⟨false, none⟩, store)
      else (s, store)
  | .navigate => (s, store)

/-- Membership test for the date range (the SQL
`entry_date BETWEEN ? AND ?`, inclusive on both ends). -/
def inRange (s e : Nat) (r : Row) : Bool :=
  decide (s ≤ r.entry_date) && decide (r.entry_date ≤ e)

/-- Descending lexicographic comparison on a pair of keys: `p` sorts no
later than `q`. -/
def descLex (p q : Nat × Nat) : Bool :=
  decide (q.1 < p.1) || (decide (p.1 = q.1) && decide (q.2 ≤ p.2))

/-- Insert into a list sorted by `r` (stable insertion). -/
def insertBy (r : α → α → Bool) (x : α) : List α → List α
  | [] => [x]
  | y :: ys => if r y x then y :: insertBy r x ys else x :: y :: ys

/-- Stable insertion sort by the relation `r`. -/
def sortBy (r : α → α → Bool) : List α → List α
  | [] => []
  | x :: xs => insertBy r x (sortBy r xs)

/-- The All-Entries range query (app.py lines 476-483):
`SELECT * FROM entries WHERE entry_date BETWEEN ? AND ?
ORDER BY entry_date DESC, id DESC`. -/
def listByRange (s e : Nat) (store : List Row) : List Row :=
  sortBy (fun a b => descLex (a.entry_date, a.id) (b.entry_date, b.id))
    (store.filter (inRange s e))

/-- The projected export row (app.py lines 658-667): Date, Time,
Customer, Type, Mode, B Amount, K Amount, Charges (= grand_charges),
Remarks. -/
structure ExportRow where
  date : Nat
  time : Nat
  customer : String
  ctype : String
  mode : String
  bAmount : ℚ
  kAmount : ℚ
  charges : ℚ
  remarks : String
deriving DecidableEq, Repr

/-- The projection of a stored row onto the export columns. -/
def project (r : Row) : ExportRow :=
  ⟨r.entry_date, r.entry_time, r.customer_name, r.customer_type,
   r.payment_mode, r.b_amount, r.k_amount, r.grand_charges, r.remarks⟩

/-- The Summary-tab export query for a date range (app.py lines
657-671): same `BETWEEN` filter, projected columns,
`ORDER BY entry_date DESC, entry_time DESC`. -/
def exportRows (s e : Nat) (store : List Row) : List ExportRow :=
  (sortBy (fun a b =>
      descLex (a.entry_date, a.entry_time) (b.entry_date, b.entry_time))
    (store.filter (inRange s e))).map project

/-- A sample persisted row used for concrete instantiations. -/
def sampleRow : Row :=
  ⟨1, 20240101, 100000, "Office", "Alice", "Cash", 100, 1, 0, 0, 1, ""⟩

theorem map_fix (f : Row → Row) :
    ∀ l : List Row, (∀ r ∈ l, f r = r) → l.map f = l
  | [], _ => rfl
  | x :: xs, h => by
      rw [List.map_cons, h x (by simp),
        map_fix f xs (fun r hr => h r (by simp [hr]))]

/-- C1: for every deposit or withdrawal line within the configured
bounds, the per-line charge is `amount × charge_pct / 100` (app.py
lines 249, 323), and the collection totals are exactly the arithmetic
sums of the per-line amounts and of the per-line charges (the running
sums of lines 259-260 and 333-334), not a recomputation from an
aggregate amount and an average percentage. -/
theorem C1_per_line_charge_and_exact_totals (c : List LineItem)
    (_hb : ∀ e ∈ c, 0 ≤ e.amount ∧ e.amount ≤ MAX_AMOUNT ∧
      0 ≤ e.charge_pct ∧ e.charge_pct ≤ MAX_CHARGE_PERCENTAGE) :
    (∀ e ∈ c, lineCharge e = e.amount * e.charge_pct / 100) ∧
    totals c = ((c.map LineItem.amount).sum, (c.map lineCharge).sum) :=
  ⟨fun _ _ => rfl, totals_eq_sum c⟩

/-- Witness for C1 at a two-line collection. -/
theorem C1_witness :
    (∀ e ∈ ([⟨500, 2, 10⟩, ⟨300, 1, 11⟩] : List LineItem),
      0 ≤ e.amount ∧ e.amount ≤ MAX_AMOUNT ∧
      0 ≤ e.charge_pct ∧ e.charge_pct ≤ MAX_CHARGE_PERCENTAGE) ∧
    ((∀ e ∈ ([⟨500, 2, 10⟩, ⟨300, 1, 11⟩] : List LineItem),
        lineCharge e = e.amount * e.charge_pct / 100) ∧
      totals [⟨500, 2, 10⟩, ⟨300, 1, 11⟩] =
        ((([⟨500, 2, 10⟩, ⟨300, 1, 11⟩] : List LineItem).map
            LineItem.amount).sum,
          (([⟨500, 2, 10⟩, ⟨300, 1, 11⟩] : List LineItem).map
            lineCharge).sum)) :=
  ⟨by decide, C1_per_line_charge_and_exact_totals _ (by decide)⟩

/-- C2 fails on the code: the Update-Entry write path (app.py lines
528-552) performs its store write after checking only the customer
name; here an update whose B amount fails `validate_amount` still
writes it to the store.  (The edit widgets clamp the amount fields but
not the charge fields, and the handler itself calls no bound
validator; `validate_charge_percentage` is called on no write path at
all.) -/
theorem C2_counterexample :
    validate_amount 2000000 = false ∧
    (updateEntry 1 "Bob" "Office" "Cash" 2000000 0 0 0 "" [sampleRow]).2 =
      none ∧
    ((updateEntry 1 "Bob" "Office" "Cash" 2000000 0 0 0 ""
        [sampleRow]).1.map Row.b_amount) = [2000000] := by
  refine ⟨by decide, by decide, by decide⟩

/-- C2 amended: the validators are pure predicates in this model, but
the write paths do not run all three of them.  The create path's write
is guarded exactly by the required-name check and `validate_amount` on
the two totals (app.py lines 373-381), and the update path's write is
guarded exactly by the required-name check (line 530);
`validate_charge_percentage` guards neither write path. -/
theorem C2_amended (date time : Nat) (ct name pm rm en uct upm urm : String)
    (bLines kLines : List LineItem) (b_amt b_chg k_amt k_chg : ℚ)
    (eid : Nat) (store : List Row) :
    ((createEntry date time ct name pm rm bLines kLines store).2 = none ↔
      (strip name ≠ "" ∧ validate_amount (totals bLines).1 = true ∧
        validate_amount (totals kLines).1 = true)) ∧
    ((updateEntry eid en uct upm b_amt b_chg k_amt k_chg urm store).2 =
        none ↔ strip en ≠ "") := by
  constructor
  · simp only [createEntry]
    split_ifs with h1 h2 h3 <;> simp_all
  · simp only [updateEntry]
    split_ifs with h <;> simp_all

/-- C3: the Save-Entry handler with a customer name that is empty after
stripping fails with MissingField and leaves the store untouched
(app.py lines 373-375 stop before the INSERT). -/
theorem C3_create_missing_name (date time : Nat) (ct name pm rm : String)
    (bLines kLines : List LineItem) (store : List Row)
    (h : strip name = "") :
    createEntry date time ct name pm rm bLines kLines store =
      (store, some Err.MissingField) := by
  simp only [createEntry]
  rw [if_pos h]

/-- Witness for C3 at a whitespace-only name. -/
theorem C3_witness :
    strip " " = "" ∧
    createEntry 0 0 "Office" " " "Cash" "" [] [] [] =
      ([], some Err.MissingField) :=
  ⟨by decide,
    C3_create_missing_name 0 0 "Office" " " "Cash" "" [] [] [] (by decide)⟩

/-- C4: amount validation is inclusive at `MAX_AMOUNT = 1000000`
(app.py lines 110-118): with a valid name and K total, a B total of
1000001 fails with OutOfRange, a B total of exactly 1000000 passes,
and a negative B total fails with OutOfRange (lines 377-381). -/
theorem C4_amount_bound (date time : Nat) (ct name pm rm : String)
    (bLines kLines : List LineItem) (store : List Row)
    (hname : strip name ≠ "")
    (hk : 0 ≤ (totals kLines).1 ∧ (totals kLines).1 ≤ MAX_AMOUNT) :
    ((totals bLines).1 = 1000001 →
      createEntry date time ct name pm rm bLines kLines store =
        (store, some Err.OutOfRange)) ∧
    ((totals bLines).1 = 1000000 →
      (createEntry date time ct name pm rm bLines kLines store).2 = none) ∧
    ((totals bLines).1 < 0 →
      createEntry date time ct name pm rm bLines kLines store =
        (store, some Err.OutOfRange)) := by
  have hvk : validate_amount (totals kLines).1 = true := by
    unfold validate_amount
    rw [if_neg (not_lt.mpr hk.1), if_neg (not_lt.mpr hk.2)]
  refine ⟨fun hb => ?_, fun hb => ?_, fun hb => ?_⟩
  · have hv : validate_amount (totals bLines).1 = false := by
      rw [hb]; norm_num [validate_amount, MAX_AMOUNT]
    simp only [createEntry]
    rw [if_neg hname, if_pos hv]
  · have hv : validate_amount (totals bLines).1 = true := by
      rw [hb]; norm_num [validate_amount, MAX_AMOUNT]
    simp only [createEntry]
    rw [if_neg hname, if_neg (by simp [hv]), if_neg (by simp [hvk])]
  · have hv : validate_amount (totals bLines).1 = false := by
      unfold validate_amount
      rw [if_pos hb]
    simp only [createEntry]
    rw [if_neg hname, if_pos hv]

/-- Witness for C4 at single-line collections hitting 1000001, 1000000
and -1. -/
theorem C4_witness :
    (strip "A" ≠ "" ∧ 0 ≤ (totals []).1 ∧ (totals []).1 ≤ MAX_AMOUNT) ∧
    ((totals [⟨1000001, 0, 1⟩]).1 = 1000001 ∧
      createEntry 0 0 "Office" "A" "Cash" "" [⟨1000001, 0, 1⟩] [] [] =
        ([], some Err.OutOfRange)) ∧
    ((totals [⟨1000000, 0, 1⟩]).1 = 1000000 ∧
      (createEntry 0 0 "Office" "A" "Cash" "" [⟨1000000, 0, 1⟩] [] []).2 =
        none) ∧
    ((totals [⟨-1, 0, 1⟩]).1 < 0 ∧
      createEntry 0 0 "Office" "A" "Cash" "" [⟨-1, 0, 1⟩] [] [] =
        ([], some Err.OutOfRange)) := by
  have h1 : (totals [(⟨1000001, 0, 1⟩ : LineItem)]).1 = 1000001 := by
    norm_num [totals, lineCharge]
  have h2 : (totals [(⟨1000000, 0, 1⟩ : LineItem)]).1 = 1000000 := by
    norm_num [totals, lineCharge]
  have h3 : (totals [(⟨-1, 0, 1⟩ : LineItem)]).1 < 0 := by
    norm_num [totals, lineCharge]
  have hk : (0 : ℚ) ≤ (totals []).1 ∧ (totals []).1 ≤ MAX_AMOUNT := by
    refine ⟨by decide, by decide⟩
  refine ⟨⟨by decide, hk⟩, ⟨h1, ?_⟩, ⟨h2, ?_⟩, ⟨h3, ?_⟩⟩
  · exact (C4_amount_bound 0 0 "Office" "A" "Cash" "" _ [] [] (by decide)
      hk).1 h1
  · exact (C4_amount_bound 0 0 "Office" "A" "Cash" "" _ [] [] (by decide)
      hk).2.1 h2
  · exact (C4_amount_bound 0 0 "Office" "A" "Cash" "" _ [] [] (by decide)
      hk).2.2 h3

/-- C5 fails on the code: the Update-Entry handler run on an id absent
from the store executes `UPDATE … WHERE id=?` matching no row, commits,
and reports success (app.py lines 539-549); the store is unchanged and
no NotFound error is produced. -/
theorem C5_counterexample :
    (updateEntry 5 "Bob" "Office" "Cash" 1 1 1 1 "x" [sampleRow]).2 =
      none ∧
    (updateEntry 5 "Bob" "Office" "Cash" 1 1 1 1 "x" [sampleRow]).1 =
      [sampleRow] ∧
    (updateEntry 5 "Bob" "Office" "Cash" 1 1 1 1 "x" [sampleRow]).2 ≠
      some Err.NotFound := by
  refine ⟨by decide, by decide, by decide⟩

/-- C5 amended: updateEntry applied to an id that matches no stored row
is a silent no-op that reports success — the store is returned
unchanged and no NotFound error is raised. -/
theorem C5_amended (eid : Nat) (en ct pm : String)
    (b_amt b_chg k_amt k_chg : ℚ) (rm : String) (store : List Row)
    (hname : strip en ≠ "") (habs : ∀ r ∈ store, r.id ≠ eid) :
    updateEntry eid en ct pm b_amt b_chg k_amt k_chg rm store =
      (store, none) := by
  simp only [updateEntry]
  rw [if_neg hname]
  rw [map_fix _ store (fun r hr => by rw [if_neg (habs r hr)])]

/-- Witness for C5 amended at an absent id. -/
theorem C5_amended_witness :
    (strip "Bob" ≠ "" ∧ ∀ r ∈ [sampleRow], r.id ≠ 5) ∧
    updateEntry 5 "Bob" "Office" "Cash" 1 1 1 1 "x" [sampleRow] =
      ([sampleRow], none) :=
  ⟨⟨by decide, by decide⟩,
    C5_amended 5 "Bob" "Office" "Cash" 1 1 1 1 "x" [sampleRow]
      (by decide) (by decide)⟩

theorem eraseFirstId_length (l : List LineItem) (i : Nat) :
    l.length ≤ (eraseFirstId l i).length + 1 := by
  induction l with
  | nil => simp [eraseFirstId]
  | cons e es ih =>
      simp only [eraseFirstId, List.length_cons]
      split_ifs
      · omega
      · simp only [List.length_cons]; omega

theorem applyOp_length (c : Collection) (h : 1 ≤ c.items.length) (op : Op) :
    1 ≤ (applyOp c op).items.length := by
  cases op with
  | add => simp [applyOp, addLine]
  | remove i =>
      simp only [applyOp, removeLine]
      split_ifs with hlt
      · have h2 := eraseFirstId_length c.items i
        show 1 ≤ (eraseFirstId c.items i).length
        omega
      · exact h
  | update i a p => simpa [applyOp, updateLine] using h
  | saveReset => simp [applyOp, resetCollection]

theorem applyOps_length (ops : List Op) :
    ∀ c : Collection, 1 ≤ c.items.length →
      1 ≤ (applyOps c ops).items.length := by
  induction ops with
  | nil => intro c h; simpa [applyOps] using h
  | cons op ops ih =>
      intro c h
      simpa [applyOps, List.foldl_cons] using ih _ (applyOp_length c h op)

/-- C6: on a non-empty line-item collection, removing the sole
remaining line is a no-op (the 🗑️ button is guarded by
`len(entries) > 1`, app.py lines 255, 329), and no sequence of
add/remove/update (or save-and-reset) operations ever brings the
collection size below 1. -/
theorem C6_collection_never_empty (c : Collection)
    (hlen : 1 ≤ c.items.length) :
    (∀ i, c.items.length = 1 → removeLine c i = c) ∧
    (∀ ops : List Op, 1 ≤ (applyOps c ops).items.length) := by
  constructor
  · intro i h1
    simp [removeLine, h1]
  · intro ops
    exact applyOps_length ops c hlen

/-- Witness for C6 at the initial collection and a concrete
add/remove/reset/remove trace. -/
theorem C6_witness :
    1 ≤ initialCollection.items.length ∧
    removeLine initialCollection 1 = initialCollection ∧
    1 ≤ (applyOps initialCollection
      [Op.add, Op.remove 2, Op.saveReset, Op.remove 0]).items.length := by
  have h := C6_collection_never_empty initialCollection (by decide)
  exact ⟨by decide, h.1 1 (by decide),
    h.2 [Op.add, Op.remove 2, Op.saveReset, Op.remove 0]⟩

/-- C7 fails on the code: `reset_form` (app.py lines 161-164) restarts
the per-collection id counter at 1 (with a seed line of id 0), so line
ids are reused after the reset that follows a save.  In the session
trace "save (reset), add" the id 1 — already carried by the seed line
of the first render (lines 141, 215-218) — is assigned again to the
newly added line: the list of ids ever used is not duplicate-free. -/
theorem C7_counterexample :
    ¬ ((runTrace [Op.saveReset, Op.add]).2).Nodup := by decide

theorem eraseFirstId_append_last (l : List LineItem) (x : LineItem)
    (i : Nat) (h : ∀ e ∈ l, e.id ≠ i) (hx : x.id = i) :
    eraseFirstId (l ++ [x]) i = l := by
  induction l with
  | nil => simp [eraseFirstId, hx]
  | cons e es ih =>
      simp only [List.cons_append, eraseFirstId]
      rw [if_neg (h e (by simp))]
      show e :: eraseFirstId (es ++ [x]) i = e :: es
      rw [ih (fun e' he' => h e' (by simp [he']))]

/-- C7 amended: within one compose cycle the counter is monotonic and
fresh — the id handed out by the next add is not carried by any
existing line — and adding a line and then removing it restores the
prior content while the counter moves on; but across a save the reset
restarts the counter, so ids are reused between cycles. -/
theorem C7_amended_fresh_and_restore (c : Collection)
    (hne : c.items ≠ [])
    (hinv : ∀ e ∈ c.items, e.id < c.counter) :
    (∀ e ∈ c.items, e.id ≠ c.counter) ∧
    removeLine (addLine c) c.counter = ⟨c.items, c.counter + 1⟩ := by
  refine ⟨fun e he => Nat.ne_of_lt (hinv e he), ?_⟩
  simp only [removeLine, addLine]
  rw [if_pos]
  · rw [eraseFirstId_append_last c.items _ c.counter
      (fun e he => Nat.ne_of_lt (hinv e he)) rfl]
  · have : 0 < c.items.length := List.length_pos.mpr hne
    simp only [List.length_append, List.length_cons, List.length_nil]
    omega

/-- Witness for C7 amended at the initial collection. -/
theorem C7_amended_witness :
    (initialCollection.items ≠ [] ∧
      ∀ e ∈ initialCollection.items, e.id < initialCollection.counter) ∧
    ((∀ e ∈ initialCollection.items, e.id ≠ initialCollection.counter) ∧
      removeLine (addLine initialCollection) initialCollection.counter =
        ⟨initialCollection.items, initialCollection.counter + 1⟩) :=
  ⟨⟨by decide, by decide⟩,
    C7_amended_fresh_and_restore initialCollection (by decide) (by decide)⟩

theorem insertBy_perm (r : α → α → Bool) (x : α) :
    ∀ l : List α, (insertBy r x l).Perm (x :: l)
  | [] => List.Perm.refl _
  | y :: ys => by
      simp only [insertBy]
      split_ifs
      · exact ((insertBy_perm r x ys).cons y).trans (List.Perm.swap x y ys)
      · exact List.Perm.refl _

theorem sortBy_perm (r : α → α → Bool) :
    ∀ l : List α, (sortBy r l).Perm l
  | [] => List.Perm.refl _
  | x :: xs =>
      (insertBy_perm r x (sortBy r xs)).trans ((sortBy_perm r xs).cons x)

theorem mem_sortBy {r : α → α → Bool} {l : List α} {a : α} :
    a ∈ sortBy r l ↔ a ∈ l :=
  (sortBy_perm r l).mem_iff

theorem insertBy_congr (r₁ r₂ : α → α → Bool) (x : α) :
    ∀ l : List α, (∀ y ∈ l, r₁ y x = r₂ y x) →
      insertBy r₁ x l = insertBy r₂ x l
  | [], _ => rfl
  | y :: ys, h => by
      simp only [insertBy]
      rw [h y (by simp)]
      split_ifs
      · rw [insertBy_congr r₁ r₂ x ys (fun z hz => h z (by simp [hz]))]
      · rfl

theorem sortBy_congr (r₁ r₂ : α → α → Bool) :
    ∀ l : List α, (∀ a ∈ l, ∀ b ∈ l, r₁ a b = r₂ a b) →
      sortBy r₁ l = sortBy r₂ l
  | [], _ => rfl
  | x :: xs, h => by
      simp only [sortBy]
      rw [sortBy_congr r₁ r₂ xs
        (fun a ha b hb => h a (by simp [ha]) b (by simp [hb]))]
      exact insertBy_congr r₁ r₂ x _
        (fun y hy => h y (by simp [mem_sortBy.mp hy]) x (by simp))

/-- C8 fails on the code: the All-Entries query orders by
`entry_date DESC, id DESC` (app.py line 479) while the export query
orders by `entry_date DESC, entry_time DESC` (line 670).  With two
same-date rows in which the later id carries the earlier time, the two
queries return the rows in different orders, so the rows at equal
positions differ. -/
theorem C8_counterexample :
    (listByRange 0 9 [⟨1, 5, 10, "Office", "Alice", "Cash",
        0, 0, 0, 0, 0, ""⟩,
      ⟨2, 5, 9, "Others", "Bob", "UPI", 0, 0, 0, 0, 0, ""⟩]).map project ≠
    exportRows 0 9 [⟨1, 5, 10, "Office", "Alice", "Cash",
        0, 0, 0, 0, 0, ""⟩,
      ⟨2, 5, 9, "Others", "Bob", "UPI", 0, 0, 0, 0, 0, ""⟩] := by
  decide

/-- C8 amended: for every date range the two queries select exactly the
same rows — the projected All-Entries rows are a permutation of the
export rows — and they agree position-by-position whenever no two rows
of the range share an entry date (the orders differ only in the
tie-break within one date: id descending versus time descending). -/
theorem C8_amended_same_rows (s e : Nat) (store : List Row) :
    ((listByRange s e store).map project).Perm (exportRows s e store) ∧
    ((store.filter (inRange s e)).Pairwise
        (fun a b => a.entry_date ≠ b.entry_date) →
      (listByRange s e store).map project = exportRows s e store) := by
  constructor
  · exact ((sortBy_perm _ _).trans (sortBy_perm _ _).symm).map project
  · intro hpw
    unfold listByRange exportRows
    congr 1
    apply sortBy_congr
    intro a ha b hb
    by_cases hab : a = b
    · subst hab
      simp [descLex]
    · have hdates : a.entry_date ≠ b.entry_date :=
        hpw.forall (fun _ _ h => Ne.symm h) ha hb hab
      simp [descLex, hdates]

/-- Witness for C8 amended at a two-row store with distinct dates. -/
theorem C8_amended_witness :
    ((listByRange 0 9 [sampleRow, ⟨2, 20240102, 9, "Others", "Bob",
        "UPI", 0, 0, 0, 0, 0, ""⟩]).map project).Perm
      (exportRows 0 9 [sampleRow, ⟨2, 20240102, 9, "Others", "Bob",
        "UPI", 0, 0, 0, 0, 0, ""⟩]) ∧
    (listByRange 0 9 [sampleRow, ⟨2, 20240102, 9, "Others", "Bob",
        "UPI", 0, 0, 0, 0, 0, ""⟩]).map project =
      exportRows 0 9 [sampleRow, ⟨2, 20240102, 9, "Others", "Bob",
        "UPI", 0, 0, 0, 0, 0, ""⟩] := by
  have h := C8_amended_same_rows 0 9 [sampleRow, ⟨2, 20240102, 9,
    "Others", "Bob", "UPI", 0, 0, 0, 0, 0, ""⟩]
  exact ⟨h.1, h.2 (by decide)⟩

theorem filter_not_length (p : Row → Bool) (l : List Row) :
    (l.filter (fun r => !p r)).length + l.countP p = l.length := by
  induction l with
  | nil => rfl
  | cons x xs ih =>
      cases hx : p x <;>
        simp [List.filter_cons, List.countP_cons, hx, ih] <;> omega

theorem filter_ne_length (sel : Nat) (l : List Row) :
    (l.filter (fun r => r.id ≠ sel)).length +
      l.countP (fun r => r.id = sel) = l.length := by
  have hfun : (fun r : Row => (decide (r.id ≠ sel))) =
      (fun r : Row => !decide (r.id = sel)) := by
    funext r
    exact decide_not
  rw [show (fun r : Row => (decide (r.id ≠ sel))) =
      (fun r : Row => !decide (r.id = sel)) from hfun]
  exact filter_not_length (fun r => decide (r.id = sel)) l

/-- C9 fails on the code: nothing outside the three button handlers
ever writes `confirm_delete`/`delete_id` (app.py lines 557-558,
572-573, 580-581), so navigating away from the All-Entries tab leaves
a pending confirmation pending instead of resetting it to Idle. -/
theorem C9_counterexample :
    (delStep .navigate 1 ⟨true, some 1⟩ []).1 ≠ ⟨false, none⟩ := by decide

/-- C9 amended: the delete flow is the two-state machine
{Idle = ⟨false, none⟩, PendingConfirm(i) = ⟨true, some i⟩}: a delete
request in Idle moves to PendingConfirm of the selected id; cancel
returns to Idle without touching the store; confirm removes exactly
the row(s) with the pending id (one row when that id occurs once) and
returns to Idle; but navigation away leaves the state — and the
store — unchanged rather than resetting to Idle (the stale pending
state still cannot act on another id, because the confirm button is
rendered only when the pending id equals the current selection). -/
theorem C9_amended_delete_flow (sel : Nat) (store : List Row)
    (s : DelState) :
    delStep .request sel ⟨false, none⟩ store = (⟨true, some sel⟩, store) ∧
    delStep .cancel sel ⟨true, some sel⟩ store = (⟨false, none⟩, store) ∧
    delStep .confirm sel ⟨true, some sel⟩ store =
      (⟨false, none⟩, store.filter (fun r => r.id ≠ sel)) ∧
    (store.countP (fun r => r.id = sel) = 1 →
      (store.filter (fun r => r.id ≠ sel)).length = store.length - 1) ∧
    delStep .navigate sel s store = (s, store) := by
  refine ⟨rfl, ?_, ?_, ?_, rfl⟩
  · simp [delStep]
  · simp [delStep]
  · intro hc
    have h := filter_ne_length sel store
    omega

/-- Witness for C9 amended at a one-row store. -/
theorem C9_amended_witness :
    delStep .request 1 ⟨false, none⟩ [sampleRow] =
      (⟨true, some 1⟩, [sampleRow]) ∧
    delStep .cancel 1 ⟨true, some 1⟩ [sampleRow] =
      (⟨false, none⟩, [sampleRow]) ∧
    delStep .confirm 1 ⟨true, some 1⟩ [sampleRow] =
      (⟨false, none⟩, [sampleRow].filter (fun r => r.id ≠ 1)) ∧
    ([sampleRow].filter (fun r => r.id ≠ 1)).length =
      [sampleRow].length - 1 ∧
    delStep .navigate 1 ⟨true, some 2⟩ [sampleRow] =
      (⟨true, some 2⟩, [sampleRow]) := by
  have h := C9_amended_delete_flow 1 [sampleRow] ⟨true, some 2⟩
  exact ⟨h.1, h.2.1, h.2.2.1, h.2.2.2.1 (by decide), h.2.2.2.2⟩

/-- C10 fails on the code: the Update-Entry handler checks that the
stripped name is non-empty (app.py line 530) but then persists the
name exactly as entered (line 546 passes `en`, not `en.strip()`), so a
name with surrounding whitespace is stored untrimmed. -/
theorem C10_counterexample :
    ((updateEntry 1 " Bob " "Office" "Cash" 0 0 0 0 "" [sampleRow]).1.map
      Row.customer_name) = [" Bob "] ∧
    strip " Bob " ≠ " Bob " ∧
    (updateEntry 1 " Bob " "Office" "Cash" 0 0 0 0 "" [sampleRow]).2 =
      none := by
  refine ⟨by decide, by decide, by decide⟩

/-- C10 amended: after a successful create, every row is either an old
row or carries the stripped, non-empty customer name; after a
successful update, every row is either an old row or carries the name
exactly as entered — guaranteed non-empty after stripping, but not
necessarily stored in trimmed form. -/
theorem C10_amended_persisted_names (date time : Nat)
    (ct name pm rm en uct upm urm : String)
    (bLines kLines : List LineItem) (b_amt b_chg k_amt k_chg : ℚ)
    (eid : Nat) (store₁ store₂ : List Row) :
    ((createEntry date time ct name pm rm bLines kLines store₁).2 =
        none →
      ∀ r ∈ (createEntry date time ct name pm rm bLines kLines store₁).1,
        r ∈ store₁ ∨ (r.customer_name = strip name ∧ strip name ≠ "")) ∧
    ((updateEntry eid en uct upm b_amt b_chg k_amt k_chg urm store₂).2 =
        none →
      ∀ r ∈ (updateEntry eid en uct upm b_amt b_chg k_amt k_chg urm
          store₂).1,
        r ∈ store₂ ∨ (r.customer_name = en ∧ strip en ≠ "")) := by
  constructor
  · simp only [createEntry]
    split_ifs with h1 h2 h3
    · simp
    · simp
    · simp
    · intro _ r hr
      rcases List.mem_append.mp hr with h | h
      · exact Or.inl h
      · simp only [List.mem_singleton] at h
        subst h
        exact Or.inr ⟨rfl, h1⟩
  · simp only [updateEntry]
    split_ifs with h
    · simp
    · intro _ r hr
      rcases List.mem_map.mp hr with ⟨a, ha, rfl⟩
      by_cases hid : a.id = eid
      · rw [if_pos hid]
        exact Or.inr ⟨rfl, h⟩
      · rw [if_neg hid]
        exact Or.inl ha

/-- Witness for C10 amended: a create with name " Alice " into the
empty store and an update with name " Bob " of the sample row. -/
theorem C10_amended_witness :
    ((createEntry 0 0 "Office" " Alice " "Cash" "" [] [] []).2 = none ∧
      (updateEntry 1 " Bob " "Office" "Cash" 0 0 0 0 ""
        [sampleRow]).2 = none) ∧
    (∀ r ∈ (createEntry 0 0 "Office" " Alice " "Cash" "" [] [] []).1,
      r ∈ ([] : List Row) ∨
        (r.customer_name = strip " Alice " ∧ strip " Alice " ≠ "")) ∧
    (∀ r ∈ (updateEntry 1 " Bob " "Office" "Cash" 0 0 0 0 ""
        [sampleRow]).1,
      r ∈ [sampleRow] ∨ (r.customer_name = " Bob " ∧ strip " Bob " ≠ "")) := by
  have h := C10_amended_persisted_names 0 0 "Office" " Alice " "Cash" ""
    " Bob " "Office" "Cash" "" [] [] 0 0 0 0 1 [] [sampleRow]
  exact ⟨⟨by decide, by decide⟩, h.1 (by decide), h.2 (by decide)⟩

end StoreCredit
